import Mathlib

/-!
Verification development for the Taleemabad financial-model engine
(`src/financial_model`): the budget dataset, the Cash-Flow Engine
(`models/cashflow_model.py`), the Scenario Engine
(`models/scenario_model.py`), the Sensitivity Engine
(`models/sensitivity_model.py`) and the grant-removal helper
(`utils/calculations.py`).

Modelling conventions:
- Python dicts keyed by month/grant names become association lists
  `List (String × _)`; Python dicts have unique keys, so first-match
  lookup coincides with dict lookup, and insertion order is preserved
  the way CPython preserves it.
- Currency amounts are embedded as `ℚ`.  Every computation the claims
  touch is exact in IEEE doubles as well: the dataset is integer-valued
  (magnitudes far below 2^53) and the bisection midpoints are dyadic
  rationals of the form -1/2 + k/1024 scaled by 100, whose products
  with the integer data stay well below 2^53, so the Python float run
  and this rational embedding produce identical values and identical
  comparison outcomes on these paths.
- The float infinity value returned by the runway helpers is
  embedded as the dedicated constructor `RunwayResult.infinite`.
-/

namespace Taleemabad

/-- Canonical month order, `MONTHS` in cashflow_model.py / scenario_model.py. -/
def MONTHS : List String :=
  ["Jan", "Feb", "Mar", "Apr", "May", "Jun",
   "Jul", "Aug", "Sep", "Oct", "Nov", "Dec"]

/-- Association-list embedding of a Python `Dict[str, float]`. -/
abbrev StrMap := List (String × ℚ)

/-- Python `d.get(k, 0)`: first matching entry, default 0. -/
def mget : StrMap → String → ℚ
  | [], _ => 0
  | (k, v) :: rest, key => if k == key then v else mget rest key

/-- Python `sum(d.values())`. -/
def msum (d : StrMap) : ℚ := (d.map Prod.snd).sum

/-- Python `k in d`. -/
def mhasKey (d : StrMap) (k : String) : Bool := d.any (fun p => p.1 == k)

/-- Python `d[k] = d.get(k, 0) + a`: update in place when the key exists
(keeping dict order), otherwise insert at the end (dict insertion order). -/
def maddKey (d : StrMap) (k : String) (a : ℚ) : StrMap :=
  if mhasKey d k then
    d.map (fun p => if p.1 == k then (p.1, p.2 + a) else p)
  else
    d ++ [(k, a)]

/-- Python `if k in d: d[k] -= a` (scenario_model.py, excluded-grant loop):
subtract only when the key is present, never insert. -/
def msubIfPresent (d : StrMap) (k : String) (a : ℚ) : StrMap :=
  if mhasKey d k then
    d.map (fun p => if p.1 == k then (p.1, p.2 - a) else p)
  else
    d

/-! ## Budget dataset (`data/budget_2026.py`) -/

/-- `OPENING_BALANCE` (budget_2026.py). -/
def OPENING_BALANCE : ℚ := 723248

/-- `MONTHLY_INFLOWS` (budget_2026.py). -/
def MONTHLY_INFLOWS : StrMap :=
  [("Jan", 206953), ("Feb", 945846), ("Mar", 1123), ("Apr", 897182),
   ("May", 1123), ("Jun", 223066), ("Jul", 25313), ("Aug", 18841),
   ("Sep", 18841), ("Oct", 25313), ("Nov", 518841), ("Dec", 218841)]

/-- `MONTHLY_EXPENSES` (budget_2026.py). -/
def MONTHLY_EXPENSES : StrMap :=
  [("Jan", 257913), ("Feb", 222948), ("Mar", 233955), ("Apr", 250107),
   ("May", 213767), ("Jun", 212442), ("Jul", 192577), ("Aug", 205969),
   ("Sep", 208570), ("Oct", 188213), ("Nov", 187948), ("Dec", 184945)]

/-- One entry of `GRANT_INCOME`: the `amount` and `timing` fields
(the prose `notes` field carries no behaviour and is omitted). -/
structure Grant where
  amount : ℚ
  timing : StrMap
deriving DecidableEq

/-- `GRANT_INCOME` (budget_2026.py), in source order. -/
def GRANT_INCOME : List (String × Grant) :=
  [("prevail_general_ops", ⟨500000, [("Feb", 250000), ("Nov", 250000)]⟩),
   ("prevail_implementation", ⟨250000, [("Feb", 250000)]⟩),
   ("prevail_data_collection", ⟨200000, [("Feb", 200000)]⟩),
   ("dovetail", ⟨400000, [("Jan", 200000), ("Dec", 200000)]⟩),
   ("mulago", ⟨950000, [("Apr", 700000), ("Nov", 250000)]⟩),
   ("niete_ict", ⟨638535, [("Feb", 244723), ("Apr", 189587), ("Jun", 204225)]⟩)]

/-- Python `GRANT_INCOME.get(k)` as an Option lookup. -/
def grantLookup (k : String) : Option Grant :=
  (GRANT_INCOME.find? (fun p => p.1 == k)).map Prod.snd

/-- `TOTAL_GRANT_INCOME` (budget_2026.py; a manually entered constant). -/
def TOTAL_GRANT_INCOME : ℚ := 2300000

/-- `TOTAL_EXPENSES` (budget_2026.py). -/
def TOTAL_EXPENSES : ℚ := 2559356

/-- `PROJECTED_SURPLUS` (budget_2026.py). -/
def PROJECTED_SURPLUS : ℚ := 1265175

/-! ## Cash-Flow Engine (`models/cashflow_model.py`) -/

/-- `MonthlyPosition` dataclass (cashflow_model.py). -/
structure MonthlyPosition where
  month : String
  opening : ℚ
  inflows : ℚ
  outflows : ℚ
  closing : ℚ
  cumulative : ℚ
deriving DecidableEq, Inhabited

/-- Loop body of `CashFlowModel._calculate_positions`, recursing over the
remaining months with the running balance `cash`. -/
def stepPositions (inflows expenses : StrMap) : List String → ℚ → List MonthlyPosition
  | [], _ => []
  | m :: rest, cash =>
    let opening := cash
    let monthInflows := mget inflows m
    let monthOutflows := mget expenses m
    let closing := opening + monthInflows - monthOutflows
    ⟨m, opening, monthInflows, monthOutflows, closing, closing⟩
      :: stepPositions inflows expenses rest closing

/-- `CashFlowModel._calculate_positions`: twelve positions in canonical
month order starting from the opening balance. -/
def calculatePositions (openingBalance : ℚ) (inflows expenses : StrMap) :
    List MonthlyPosition :=
  stepPositions inflows expenses MONTHS openingBalance

/-- State of a constructed `CashFlowModel` instance. -/
structure CashFlowModel where
  opening_balance : ℚ
  inflows : StrMap
  expenses : StrMap
  positions : List MonthlyPosition
deriving DecidableEq

/-- `CashFlowModel.__init__`.  The Python parameters `inflows`/`expenses`
default to `None` and are taken through `inflows or MONTHLY_INFLOWS.copy()`:
both `None` and the empty dict are falsy and fall back to the budget
defaults, which the empty list models here. -/
def CashFlowModel.init (openingBalance : ℚ) (inflowsArg expensesArg : StrMap) :
    CashFlowModel :=
  let infl := if inflowsArg.isEmpty then MONTHLY_INFLOWS else inflowsArg
  let exp := if expensesArg.isEmpty then MONTHLY_EXPENSES else expensesArg
  ⟨openingBalance, infl, exp, calculatePositions openingBalance infl exp⟩

/-- `CashFlowModel.get_position`: first position with the given month name. -/
def CashFlowModel.get_position (m : CashFlowModel) (month : String) :
    Option MonthlyPosition :=
  m.positions.find? (fun p => p.month == month)

/-- `CashFlowModel.get_year_end_position`: closing of the last position,
0 when there are no positions. -/
def CashFlowModel.get_year_end_position (m : CashFlowModel) : ℚ :=
  match m.positions.getLast? with
  | some p => p.closing
  | none => 0

/-- `CashFlowModel.get_minimum_cash_month`: Python `min(positions, key=closing)`
keeps the earliest position on ties; `none` only for an empty list, on which
the Python `min` would raise (never reached: there are always 12 positions). -/
def CashFlowModel.get_minimum_cash_month (m : CashFlowModel) :
    Option MonthlyPosition :=
  match m.positions with
  | [] => none
  | p :: rest =>
    some (rest.foldl (fun best q => if q.closing < best.closing then q else best) p)

/-- `CashFlowModel.get_total_inflows`: sums the values of the stored inflow
dict itself, not of the computed positions. -/
def CashFlowModel.get_total_inflows (m : CashFlowModel) : ℚ := msum m.inflows

/-- `CashFlowModel.get_total_outflows`. -/
def CashFlowModel.get_total_outflows (m : CashFlowModel) : ℚ := msum m.expenses

/-- `CashFlowModel.get_net_cash_flow`. -/
def CashFlowModel.get_net_cash_flow (m : CashFlowModel) : ℚ :=
  m.get_total_inflows - m.get_total_outflows

/-- `CashFlowModel.get_average_monthly_burn`. -/
def CashFlowModel.get_average_monthly_burn (m : CashFlowModel) : ℚ :=
  m.get_total_outflows / 12

/-- Embedding of a Python float that may be the infinity value. -/
inductive RunwayResult where
  | finite (q : ℚ)
  | infinite
deriving DecidableEq

/-- Effective burn rate in `get_runway_at_month`: Python
`burn = burn_rate or self.get_average_monthly_burn()` treats both `None`
and `0` as falsy, so a supplied burn rate of exactly 0 falls back to the
average monthly burn. -/
def CashFlowModel.effectiveBurn (m : CashFlowModel) (burnRate : Option ℚ) : ℚ :=
  match burnRate with
  | none => m.get_average_monthly_burn
  | some b => if b = 0 then m.get_average_monthly_burn else b

/-- `CashFlowModel.get_runway_at_month`: 0 for an unknown month, the
infinite sentinel when the effective burn rate is not positive, otherwise
closing divided by the effective burn rate. -/
def CashFlowModel.get_runway_at_month (m : CashFlowModel) (month : String)
    (burnRate : Option ℚ) : RunwayResult :=
  match m.get_position month with
  | none => .finite 0
  | some pos =>
    let burn := m.effectiveBurn burnRate
    if burn ≤ 0 then .infinite else .finite (pos.closing / burn)

/-! ## Scenario Engine (`models/scenario_model.py`) -/

/-- `ScenarioType` enum. -/
inductive ScenarioType where
  | base
  | optimistic
  | pessimistic
  | custom
deriving DecidableEq

/-- Parameter record stored in `ScenarioModel.SCENARIO_PARAMS`. -/
structure ScenarioParams where
  revenue_multiplier : ℚ
  expense_multiplier : ℚ
  grant_probability : ℚ
  name : String
deriving DecidableEq

/-- `ScenarioModel.SCENARIO_PARAMS`: the dict has entries for base,
optimistic and pessimistic only; `custom` is absent. -/
def SCENARIO_PARAMS : ScenarioType → Option ScenarioParams
  | .base => some ⟨1, 1, 1, "Base Case (Budget)"⟩
  | .optimistic => some ⟨12/10, 9/10, 1, "Optimistic (Best Case)"⟩
  | .pessimistic => some ⟨7/10, 115/100, 7/10, "Pessimistic (Worst Case)"⟩
  | .custom => none

/-- Parameter resolution in `ScenarioModel.run_scenario`: the
`SCENARIO_PARAMS.get(scenario_type, SCENARIO_PARAMS[BASE])` fallback
followed by the three `if ... is not None` keyword overrides. -/
def resolveParams (st : ScenarioType)
    (revenueMultiplier expenseMultiplier grantProbability : Option ℚ) :
    ScenarioParams :=
  let p := (SCENARIO_PARAMS st).getD ⟨1, 1, 1, "Base Case (Budget)"⟩
  ⟨revenueMultiplier.getD p.revenue_multiplier,
   expenseMultiplier.getD p.expense_multiplier,
   grantProbability.getD p.grant_probability,
   p.name⟩

/-- Adjusted inflow map built inside `run_scenario`: every base inflow is
scaled by `revenue_multiplier * grant_probability`, then each excluded
grant present in `GRANT_INCOME` has its unscaled timing amounts subtracted
from the months already present in the map. -/
def scenarioAdjustedInflows (st : ScenarioType)
    (revenueMultiplier expenseMultiplier grantProbability : Option ℚ)
    (excludedGrants : List String) : StrMap :=
  let params := resolveParams st revenueMultiplier expenseMultiplier grantProbability
  let scaled := MONTHLY_INFLOWS.map
    (fun p => (p.1, p.2 * params.revenue_multiplier * params.grant_probability))
  excludedGrants.foldl
    (fun acc grantKey =>
      match grantLookup grantKey with
      | none => acc
      | some grant => grant.timing.foldl (fun d t => msubIfPresent d t.1 t.2) acc)
    scaled

/-- Adjusted expense map built inside `run_scenario`. -/
def scenarioAdjustedExpenses (st : ScenarioType)
    (revenueMultiplier expenseMultiplier grantProbability : Option ℚ) : StrMap :=
  let params := resolveParams st revenueMultiplier expenseMultiplier grantProbability
  MONTHLY_EXPENSES.map (fun p => (p.1, p.2 * params.expense_multiplier))

/-- `ScenarioResult` dataclass; the `assumptions` dict is flattened into
three fields. -/
structure ScenarioResult where
  scenario_type : ScenarioType
  name : String
  total_inflows : ℚ
  total_expenses : ℚ
  year_end_surplus : ℚ
  minimum_cash : ℚ
  minimum_cash_month : String
  runway_months : RunwayResult
  assumed_revenue_multiplier : ℚ
  assumed_expense_multiplier : ℚ
  assumed_grant_probability : ℚ
deriving DecidableEq

/-- `ScenarioModel.run_scenario`.  `ScenarioModel.__init__` copies
`MONTHLY_INFLOWS`/`MONTHLY_EXPENSES` into `base_inflows`/`base_expenses`,
so those constants appear directly.  The `min_position` lookup cannot miss
(there are always 12 positions); the impossible empty case falls back to a
default position. -/
def run_scenario (st : ScenarioType)
    (revenueMultiplier expenseMultiplier grantProbability : Option ℚ)
    (excludedGrants : List String) : ScenarioResult :=
  let params := resolveParams st revenueMultiplier expenseMultiplier grantProbability
  let adjustedInflows :=
    scenarioAdjustedInflows st revenueMultiplier expenseMultiplier grantProbability
      excludedGrants
  let adjustedExpenses :=
    scenarioAdjustedExpenses st revenueMultiplier expenseMultiplier grantProbability
  let model := CashFlowModel.init OPENING_BALANCE adjustedInflows adjustedExpenses
  let minPosition := model.get_minimum_cash_month.getD default
  let avgBurn := model.get_average_monthly_burn
  ⟨st, params.name,
   model.get_total_inflows,
   model.get_total_outflows,
   model.get_year_end_position,
   minPosition.closing,
   minPosition.month,
   (if avgBurn > 0 then .finite (model.get_year_end_position / avgBurn)
    else .infinite),
   params.revenue_multiplier,
   params.expense_multiplier,
   params.grant_probability⟩

/-- `ScenarioModel.simulate_grant_loss`: a custom scenario with the single
grant key excluded and no multiplier overrides. -/
def simulate_grant_loss (grantKey : String) : ScenarioResult :=
  run_scenario .custom none none none [grantKey]

/-! ## Grant removal helper (`utils/calculations.py`) -/

/-- Key normalisation in `simulate_grant_removal`:
`grant_to_remove.lower().replace(" ", "_")`.  Both steps act character by
character (the replace pattern is a single character), modelled as one
character map. -/
def normalizeGrantKey (s : String) : String :=
  String.mk (s.data.map (fun c => if c = ' ' then '_' else c.toLower))

/-- Return value of `simulate_grant_removal`: either the error dict
carrying the list of available grant keys, or the impact-metric dict. -/
inductive GrantRemovalOutcome where
  | notFound (available : List String)
  | removed (removed_amount new_total percentage_lost new_surplus
      original_surplus : ℚ)
deriving DecidableEq

/-- `simulate_grant_removal` (calculations.py): normalises the key, returns
the not-found dict listing `GRANT_INCOME.keys()` for an unknown grant, and
otherwise computes the impact metrics from the module constants. -/
def simulate_grant_removal (grantToRemove : String) : GrantRemovalOutcome :=
  let key := normalizeGrantKey grantToRemove
  match grantLookup key with
  | none => .notFound (GRANT_INCOME.map Prod.fst)
  | some grant =>
    let removedAmount := grant.amount
    .removed removedAmount (TOTAL_GRANT_INCOME - removedAmount)
      (removedAmount / TOTAL_GRANT_INCOME)
      (PROJECTED_SURPLUS - removedAmount)
      PROJECTED_SURPLUS

/-! ## Sensitivity Engine (`models/sensitivity_model.py`) -/

/-- `SensitivityResult` dataclass.  The runway fields can be the float
infinity in Python (when the adjusted average burn is not positive), so
they carry `RunwayResult`; IEEE `inf - finite = inf` is mirrored by
`runwaySub`. -/
structure SensitivityResult where
  varName : String
  base_value : ℚ
  test_value : ℚ
  change_pct : ℚ
  impact_on_surplus : ℚ
  new_surplus : ℚ
  impact_on_runway : RunwayResult
  new_runway : RunwayResult
deriving DecidableEq

/-- Subtraction of a finite baseline from a possibly-infinite runway,
matching IEEE float behaviour on the values the code produces. -/
def runwaySub (r : RunwayResult) (base : ℚ) : RunwayResult :=
  match r with
  | .finite q => .finite (q - base)
  | .infinite => .infinite

/-- `SensitivityModel.__init__` baseline surplus: the `PROJECTED_SURPLUS`
constant, not a recomputed value. -/
def sensitivityBaseSurplus : ℚ := PROJECTED_SURPLUS

/-- `SensitivityModel.__init__` baseline runway:
`base_model.get_year_end_position() / base_model.get_average_monthly_burn()`
on the default model (plain division; the default burn is positive). -/
def sensitivityBaseRunway : ℚ :=
  (CashFlowModel.init OPENING_BALANCE [] []).get_year_end_position /
    (CashFlowModel.init OPENING_BALANCE [] []).get_average_monthly_burn

/-- Adjusted inflow map of the `grant_total` branch of `analyze_variable`:
for every grant timing entry, `amount * (multiplier - 1)` is added onto the
base inflows via dict update-or-insert. -/
def grantTotalAdjustedInflows (multiplier : ℚ) : StrMap :=
  GRANT_INCOME.foldl
    (fun acc g =>
      g.2.timing.foldl (fun d t => maddKey d t.1 (t.2 * (multiplier - 1))) acc)
    MONTHLY_INFLOWS

/-- `SensitivityModel.analyze_variable`.  `none` embeds the
`ValueError(f"Unknown variable: ...")` raised for an unrecognised variable
name.  `base_inflows`/`base_expenses` are the budget constants. -/
def analyze_variable (varName : String) (changePct : ℚ) :
    Option SensitivityResult :=
  let multiplier := 1 + changePct / 100
  let branch : Option (CashFlowModel × ℚ × ℚ) :=
    if varName == "revenue" then
      let adjustedInflows := MONTHLY_INFLOWS.map (fun p => (p.1, p.2 * multiplier))
      some (CashFlowModel.init OPENING_BALANCE adjustedInflows MONTHLY_EXPENSES,
        msum MONTHLY_INFLOWS, msum adjustedInflows)
    else if varName == "expenses" then
      let adjustedExpenses := MONTHLY_EXPENSES.map (fun p => (p.1, p.2 * multiplier))
      some (CashFlowModel.init OPENING_BALANCE MONTHLY_INFLOWS adjustedExpenses,
        msum MONTHLY_EXPENSES, msum adjustedExpenses)
    else if varName == "grant_total" then
      some (CashFlowModel.init OPENING_BALANCE (grantTotalAdjustedInflows multiplier)
          MONTHLY_EXPENSES,
        TOTAL_GRANT_INCOME, TOTAL_GRANT_INCOME * multiplier)
    else
      none
  branch.map (fun b =>
    let model := b.1
    let newSurplus := model.get_year_end_position
    let newRunway : RunwayResult :=
      if model.get_average_monthly_burn > 0 then
        .finite (newSurplus / model.get_average_monthly_burn)
      else .infinite
    ⟨varName, b.2.1, b.2.2, changePct,
     newSurplus - sensitivityBaseSurplus, newSurplus,
     runwaySub newRunway sensitivityBaseRunway, newRunway⟩)

/-- One grant dependency record from `analyze_grant_dependency`. -/
structure GrantDependencyRecord where
  grant_amount : ℚ
  percentage_of_total : ℚ
  impact_on_surplus : ℚ
  new_surplus : ℚ
  new_runway_months : RunwayResult
  critical : Bool
deriving DecidableEq

/-- `SensitivityModel.analyze_grant_dependency`: one record per grant, each
from a fresh Cash-Flow run on the baseline inflows minus that single grant
timing (`adjusted[month] = adjusted.get(month, 0) - amount`). -/
def analyze_grant_dependency : List (String × GrantDependencyRecord) :=
  GRANT_INCOME.map (fun g =>
    let adjustedInflows :=
      g.2.timing.foldl (fun d t => maddKey d t.1 (-t.2)) MONTHLY_INFLOWS
    let model := CashFlowModel.init OPENING_BALANCE adjustedInflows MONTHLY_EXPENSES
    let newSurplus := model.get_year_end_position
    let avgBurn := model.get_average_monthly_burn
    (g.1,
     ⟨g.2.amount,
      g.2.amount / TOTAL_GRANT_INCOME * 100,
      newSurplus - sensitivityBaseSurplus,
      newSurplus,
      (if avgBurn > 0 then .finite (newSurplus / avgBurn) else .infinite),
      decide (newSurplus < 0)⟩))

/-- Loop of `SensitivityModel.find_break_even_point`, with explicit fuel:
`none` means the fuel ran out or `analyze_variable` raised; the Python
`while high - low > tolerance` loop with range (-50, 50) and tolerance 0.1
runs exactly 10 iterations, far below the fuel supplied below. -/
def bisectBreakEven (varName : String) : Nat → ℚ → ℚ → Option ℚ
  | 0, _, _ => none
  | fuel + 1, low, high =>
    if high - low > 1/10 then
      let mid := (low + high) / 2
      match analyze_variable varName mid with
      | none => none
      | some result =>
        if result.new_surplus > 0 then
          if varName == "revenue" then bisectBreakEven varName fuel low mid
          else bisectBreakEven varName fuel mid high
        else
          if varName == "revenue" then bisectBreakEven varName fuel mid high
          else bisectBreakEven varName fuel low mid
    else
      some ((low + high) / 2)

/-- `SensitivityModel.find_break_even_point` with its default search range
(-50, 50): bisection until the interval is within the 0.1 tolerance,
returning the final interval midpoint. -/
def find_break_even_point (varName : String) (low high : ℚ) : Option ℚ :=
  bisectBreakEven varName 64 low high

/-- Composition tested by the break-even claim: the surplus left when the
break-even percentage is fed back into `analyze_variable`. -/
def breakEvenResidual (varName : String) : Option ℚ :=
  (find_break_even_point varName (-50) 50).bind
    (fun pct => (analyze_variable varName pct).map SensitivityResult.new_surplus)

/-! ## General lemmas about the association-map embedding -/

lemma mget_eq_zero_of_not_mem (d : StrMap) (k : String)
    (h : k ∉ d.map Prod.fst) : mget d k = 0 := by
  induction d with
  | nil => rfl
  | cons p rest ih =>
    obtain ⟨k1, v1⟩ := p
    simp only [List.map_cons, List.mem_cons, not_or] at h
    simp only [mget]
    rw [if_neg (by simpa using fun hx => h.1 hx.symm), ih h.2]

lemma sum_map_zero (ms : List String) : (ms.map (fun _ => (0 : ℚ))).sum = 0 := by
  induction ms with
  | nil => rfl
  | cons a ms ih => simp [ih]

lemma sum_mget_cons (ms : List String) (k : String) (v : ℚ) (d : StrMap)
    (hms : ms.Nodup) (hk : k ∈ ms) (hkd : k ∉ d.map Prod.fst) :
    (ms.map (mget ((k, v) :: d))).sum = v + (ms.map (mget d)).sum := by
  induction ms with
  | nil => cases hk
  | cons a ms ih =>
    by_cases hka : k = a
    · subst hka
      have htail : ms.map (mget ((k, v) :: d)) = ms.map (mget d) := by
        apply List.map_congr_left
        intro m hm
        have hkm : ¬ k = m := fun h => (List.nodup_cons.mp hms).1 (h ▸ hm)
        simp [mget, hkm]
      have hda : mget d k = 0 := mget_eq_zero_of_not_mem d k hkd
      have hhead : mget ((k, v) :: d) k = v := by simp [mget]
      simp only [List.map_cons, List.sum_cons, htail, hhead, hda]
      ring
    · have hk2 : k ∈ ms := by
        rcases List.mem_cons.mp hk with h | h
        · exact absurd h hka
        · exact h
      have hrec := ih (List.nodup_cons.mp hms).2 hk2
      simp only [List.map_cons, List.sum_cons, mget] at hrec ⊢
      rw [if_neg (by simpa using hka), hrec]
      ring

/-- Summing the month-indexed lookups over a duplicate-free month list
recovers the dict-value sum, whenever the dict keys all lie in the list
and are themselves duplicate-free. -/
lemma sum_mget_eq_msum (ms : List String) (d : StrMap) (hms : ms.Nodup)
    (hnd : (d.map Prod.fst).Nodup) (hsub : ∀ k ∈ d.map Prod.fst, k ∈ ms) :
    (ms.map (mget d)).sum = msum d := by
  induction d with
  | nil =>
    simp only [msum, List.map_nil, List.sum_nil]
    have : ms.map (mget []) = ms.map (fun _ => (0 : ℚ)) := by
      apply List.map_congr_left
      intro m _
      rfl
    rw [this, sum_map_zero]
  | cons p rest ih =>
    obtain ⟨k, v⟩ := p
    simp only [List.map_cons, List.nodup_cons] at hnd
    have hk : k ∈ ms := hsub k (by simp)
    have hrest : ∀ x ∈ rest.map Prod.fst, x ∈ ms := by
      intro x hx
      exact hsub x (by simp [hx])
    rw [sum_mget_cons ms k v rest hms hk hnd.1, ih hnd.2 hrest]
    simp [msum]

/-! ## Claim theorems -/

/- The core rational-number operations are irreducible by default, which
blocks evaluation of concrete model runs inside decidability checks; they
are restored to the ordinary reducibility for this development. -/
attribute [local semireducible] Rat.add Rat.mul Rat.sub Rat.inv

set_option maxRecDepth 100000

/-- C1, counterexample: on the fixed budget inputs the Cash-Flow Engine's
December closing is not 1265175 — the monthly series of budget_2026.py sums
to a year-end position of 1265177 (the dataset constants
`PROJECTED_SURPLUS`/`MONTHLY_CASH_POSITION` carry a drifted hand-entered
1265175). -/
theorem claim_C1_counterexample :
    (CashFlowModel.init OPENING_BALANCE MONTHLY_INFLOWS MONTHLY_EXPENSES).get_year_end_position
      ≠ PROJECTED_SURPLUS := by decide

/-- C1, amended: on the fixed budget inputs the base-case year-end position
(closing of December) equals exactly 1265177, and the minimum-cash month is
Jan with closing 672288, the lowest monthly closing of the year. -/
theorem claim_C1_amended :
    (CashFlowModel.init OPENING_BALANCE MONTHLY_INFLOWS MONTHLY_EXPENSES).get_year_end_position
        = 1265177 ∧
    ((CashFlowModel.init OPENING_BALANCE MONTHLY_INFLOWS MONTHLY_EXPENSES).get_minimum_cash_month).map
        (fun p => (p.month, p.closing)) = some ("Jan", 672288) ∧
    (CashFlowModel.init OPENING_BALANCE MONTHLY_INFLOWS MONTHLY_EXPENSES).positions.all
        (fun p => decide (672288 ≤ p.closing)) = true := by decide

/-- C10: constructing the Cash-Flow Engine with an empty override map does
not treat the twelve months as zero: the empty map is silently replaced by
the budget default map (so the positions equal the default-budget run),
whereas feeding an empty dict directly to the position computation would
have produced the all-zero run. -/
theorem claim_C10 :
    (CashFlowModel.init OPENING_BALANCE [] MONTHLY_EXPENSES).positions
        = (CashFlowModel.init OPENING_BALANCE MONTHLY_INFLOWS MONTHLY_EXPENSES).positions ∧
    (CashFlowModel.init OPENING_BALANCE MONTHLY_INFLOWS []).positions
        = (CashFlowModel.init OPENING_BALANCE MONTHLY_INFLOWS MONTHLY_EXPENSES).positions ∧
    (CashFlowModel.init OPENING_BALANCE [] []).get_year_end_position = 1265177 ∧
    calculatePositions OPENING_BALANCE [] MONTHLY_EXPENSES
        ≠ (CashFlowModel.init OPENING_BALANCE [] MONTHLY_EXPENSES).positions := by decide

/-- C3, counterexample: with an extra non-month key in the override map,
`get_total_inflows` (which sums the raw dict values) differs from the sum
of the twelve position inflows (which ignore the extra key). -/
theorem claim_C3_counterexample :
    (CashFlowModel.init OPENING_BALANCE (MONTHLY_INFLOWS ++ [("Bonus", 5)])
        MONTHLY_EXPENSES).get_total_inflows
      ≠ (((CashFlowModel.init OPENING_BALANCE (MONTHLY_INFLOWS ++ [("Bonus", 5)])
        MONTHLY_EXPENSES).positions).map MonthlyPosition.inflows).sum := by decide

/-- C6, counterexample: a supplied burn rate of exactly 0 is falsy in the
Python `burn_rate or average` fallback, so `get_runway_at_month` divides by
the average monthly burn instead of returning the +infinity sentinel the
claim requires for a burn rate ≤ 0. -/
theorem claim_C6_counterexample :
    (CashFlowModel.init OPENING_BALANCE [] []).get_runway_at_month "Jan" (some 0)
        = .finite (1344576 / 426559) ∧
    (CashFlowModel.init OPENING_BALANCE [] []).get_runway_at_month "Jan" (some 0)
        ≠ .infinite := by decide

/-- C7, counterexample: the grant-dependency record for mulago carries
new_surplus 315177 (the re-run year end 1265177 minus 950000), not the
315175 the claim states. -/
theorem claim_C7_counterexample :
    (analyze_grant_dependency.find? (fun p => p.1 == "mulago")).map
        (fun p => p.2.new_surplus) ≠ some 315175 := by decide

/-- C7, amended: each grant-dependency record is flagged critical exactly
when its recomputed surplus is negative, and removing mulago (950000,
disbursed 700000 in Apr and 250000 in Nov) drops the year-end surplus to
exactly 315177, which is positive, so its record has critical = false. -/
theorem claim_C7_amended :
    grantLookup "mulago" = some ⟨950000, [("Apr", 700000), ("Nov", 250000)]⟩ ∧
    (analyze_grant_dependency.find? (fun p => p.1 == "mulago")).map
        (fun p => (p.2.grant_amount, p.2.new_surplus, p.2.critical))
      = some (950000, 315177, false) ∧
    analyze_grant_dependency.all
        (fun p => p.2.critical == decide (p.2.new_surplus < 0)) = true := by decide

/-- C8, counterexample: with grant probability 0 the year-end surplus is
constant in the revenue multiplier, so it is not strictly increasing. -/
theorem claim_C8_counterexample :
    (run_scenario .custom (some 2) (some 1) (some 0) []).year_end_surplus
      = (run_scenario .custom (some 1) (some 1) (some 0) []).year_end_surplus := by decide

/-- C5, counterexample: with excluded_grants = ["mulago"] the adjusted April
inflow is the scaled base inflow minus the 700000 April disbursement, not
the product formula of the claim. -/
theorem claim_C5_counterexample :
    mget (scenarioAdjustedInflows .custom none none none ["mulago"]) "Apr"
      ≠ mget MONTHLY_INFLOWS "Apr"
          * (resolveParams .custom none none none).revenue_multiplier
          * (resolveParams .custom none none none).grant_probability := by decide

/-- C9, counterexample: simulate_grant_loss with an unknown grant key does
not fail with a not-found result: the unknown key is silently skipped and
the unmodified custom scenario result is returned. -/
theorem claim_C9_counterexample :
    simulate_grant_loss "no_such_grant" = run_scenario .custom none none none [] ∧
    (simulate_grant_loss "no_such_grant").year_end_surplus = 1265177 := by decide

/-- C4, counterexample: feeding the revenue break-even point back into the
elasticity analysis leaves a residual surplus of 1511191/2048 (about 737.89
dollars), which is not within one dollar of zero: the bisection stops once
the interval is below 0.1 percentage points, and one tenth of a percentage
point of revenue is worth about 3101 dollars of surplus. -/
theorem claim_C4_counterexample :
    breakEvenResidual "revenue" = some (1511191 / 2048) ∧
    ¬ |(1511191 : ℚ) / 2048| ≤ 1 := by decide

/-- C4, amended: for both revenue and expenses, the bisection starting from
(-50, 50) terminates once the interval is below the 0.1-percentage-point
tolerance and returns the interval midpoint, and feeding that midpoint back
into the elasticity analysis yields a new_surplus within 800 dollars of
zero (revenue residual 1511191/2048, about +737.89; expense residual
-771553/1024, about -753.47). -/
theorem claim_C4_amended :
    find_break_even_point "revenue" (-50) 50 = some (-20875 / 512) ∧
    breakEvenResidual "revenue" = some (1511191 / 2048) ∧
    |(1511191 : ℚ) / 2048| ≤ 800 ∧
    find_break_even_point "expenses" (-50) 50 = some (25325 / 512) ∧
    breakEvenResidual "expenses" = some (-771553 / 1024) ∧
    |(-771553 : ℚ) / 1024| ≤ 800 := by decide

/-- C2: for every opening balance and every pair of inflow/expense maps,
the position sequence has twelve records, the first opening is the supplied
opening balance, every closing is opening + inflow - outflow, and each
opening equals the previous closing. -/
theorem claim_C2 (ob : ℚ) (infl exp : StrMap) :
    (calculatePositions ob infl exp).length = 12 ∧
    ((calculatePositions ob infl exp).getD 0 default).opening = ob ∧
    (∀ i : Fin 12,
      ((calculatePositions ob infl exp).getD i default).closing
        = ((calculatePositions ob infl exp).getD i default).opening
          + ((calculatePositions ob infl exp).getD i default).inflows
          - ((calculatePositions ob infl exp).getD i default).outflows) ∧
    (∀ i : Fin 11,
      ((calculatePositions ob infl exp).getD ((i : ℕ) + 1) default).opening
        = ((calculatePositions ob infl exp).getD (i : ℕ) default).closing) := by
  refine ⟨?_, ?_, ?_, ?_⟩
  · simp [calculatePositions, stepPositions, MONTHS]
  · simp [calculatePositions, stepPositions, MONTHS]
  · intro i
    fin_cases i <;> simp [calculatePositions, stepPositions, MONTHS]
  · intro i
    fin_cases i <;> simp [calculatePositions, stepPositions, MONTHS]

lemma stepPositions_map_inflows (f e : StrMap) :
    ∀ (ms : List String) (c : ℚ),
      (stepPositions f e ms c).map MonthlyPosition.inflows = ms.map (mget f) := by
  intro ms
  induction ms with
  | nil => intro c; rfl
  | cons m rest ih => intro c; simp [stepPositions, ih]

lemma stepPositions_map_outflows (f e : StrMap) :
    ∀ (ms : List String) (c : ℚ),
      (stepPositions f e ms c).map MonthlyPosition.outflows = ms.map (mget e) := by
  intro ms
  induction ms with
  | nil => intro c; rfl
  | cons m rest ih => intro c; simp [stepPositions, ih]

/-- C3, amended: for override maps whose keys are duplicate-free and drawn
from the twelve canonical months (missing keys default to 0),
`get_total_inflows`/`get_total_outflows` equal the sums of the twelve
position inflow/outflow values, and `get_year_end_position` equals the
December (12th) closing balance.  For maps with extra non-month keys the
totals instead include the extra values, because they sum the raw dict. -/
theorem claim_C3_amended (infl exp : StrMap)
    (hin : (infl.map Prod.fst).Nodup) (hi : ∀ k ∈ infl.map Prod.fst, k ∈ MONTHS)
    (hen : (exp.map Prod.fst).Nodup) (he : ∀ k ∈ exp.map Prod.fst, k ∈ MONTHS) :
    (CashFlowModel.init OPENING_BALANCE infl exp).get_total_inflows
      = (((CashFlowModel.init OPENING_BALANCE infl exp).positions).map
          MonthlyPosition.inflows).sum ∧
    (CashFlowModel.init OPENING_BALANCE infl exp).get_total_outflows
      = (((CashFlowModel.init OPENING_BALANCE infl exp).positions).map
          MonthlyPosition.outflows).sum ∧
    (CashFlowModel.init OPENING_BALANCE infl exp).get_year_end_position
      = (((CashFlowModel.init OPENING_BALANCE infl exp).positions).getD 11
          default).closing := by
  have hM : MONTHS.Nodup := by decide
  refine ⟨?_, ?_, ?_⟩
  · simp only [CashFlowModel.init, CashFlowModel.get_total_inflows,
      calculatePositions]
    rw [stepPositions_map_inflows]
    by_cases hemp : infl.isEmpty
    · simp only [hemp, if_true]
      exact (sum_mget_eq_msum MONTHS MONTHLY_INFLOWS hM (by decide) (by decide)).symm
    · simp only [hemp, if_false]
      exact (sum_mget_eq_msum MONTHS infl hM hin hi).symm
  · simp only [CashFlowModel.init, CashFlowModel.get_total_outflows,
      calculatePositions]
    rw [stepPositions_map_outflows]
    by_cases hemp : exp.isEmpty
    · simp only [hemp, if_true]
      exact (sum_mget_eq_msum MONTHS MONTHLY_EXPENSES hM (by decide) (by decide)).symm
    · simp only [hemp, if_false]
      exact (sum_mget_eq_msum MONTHS exp hM hen he).symm
  · simp [CashFlowModel.init, CashFlowModel.get_year_end_position,
      calculatePositions, stepPositions, MONTHS]

/-- C3, witness: the amended theorem applied to the full inflow map and an
expense map defining only January (the other eleven keys missing). -/
theorem claim_C3_witness :
    (CashFlowModel.init OPENING_BALANCE MONTHLY_INFLOWS [("Jan", 5)]).get_total_inflows
      = (((CashFlowModel.init OPENING_BALANCE MONTHLY_INFLOWS [("Jan", 5)]).positions).map
          MonthlyPosition.inflows).sum ∧
    (CashFlowModel.init OPENING_BALANCE MONTHLY_INFLOWS [("Jan", 5)]).get_total_outflows
      = (((CashFlowModel.init OPENING_BALANCE MONTHLY_INFLOWS [("Jan", 5)]).positions).map
          MonthlyPosition.outflows).sum ∧
    (CashFlowModel.init OPENING_BALANCE MONTHLY_INFLOWS [("Jan", 5)]).get_year_end_position
      = (((CashFlowModel.init OPENING_BALANCE MONTHLY_INFLOWS [("Jan", 5)]).positions).getD 11
          default).closing :=
  claim_C3_amended MONTHLY_INFLOWS [("Jan", 5)] (by decide) (by decide)
    (by decide) (by decide)

lemma mget_map_scale2 (d : StrMap) (k : String) (a b : ℚ) :
    mget (d.map fun p => (p.1, p.2 * a * b)) k = mget d k * a * b := by
  induction d with
  | nil => simp [mget]
  | cons p rest ih =>
    obtain ⟨k1, v1⟩ := p
    by_cases h : k1 == k
    · simp [mget, h]
    · simp [mget, h, ih]

lemma mget_map_scale1 (d : StrMap) (k : String) (a : ℚ) :
    mget (d.map fun p => (p.1, p.2 * a)) k = mget d k * a := by
  induction d with
  | nil => simp [mget]
  | cons p rest ih =>
    obtain ⟨k1, v1⟩ := p
    by_cases h : k1 == k
    · simp [mget, h]
    · simp [mget, h, ih]

/-- C5, amended: with no excluded grants, for every scenario kind, every
combination of the three optional multiplier arguments and every month, the
adjusted inflow is the base inflow times revenue multiplier times grant
probability and the adjusted expense is the base expense times expense
multiplier, where each multiplier is the caller override when given and
otherwise the named-kind default (base 1/1/1, optimistic 1.2/0.9/1,
pessimistic 0.7/1.15/0.7, custom 1 each); when excluded grants are
supplied their unscaled disbursement amounts are additionally subtracted
from the scaled inflows of the affected months. -/
theorem claim_C5_amended (st : ScenarioType) (rm em gp : Option ℚ) (m : String) :
    mget (scenarioAdjustedInflows st rm em gp []) m
      = mget MONTHLY_INFLOWS m * (resolveParams st rm em gp).revenue_multiplier
          * (resolveParams st rm em gp).grant_probability ∧
    mget (scenarioAdjustedExpenses st rm em gp) m
      = mget MONTHLY_EXPENSES m * (resolveParams st rm em gp).expense_multiplier ∧
    (resolveParams st rm em gp).revenue_multiplier
      = rm.getD (match st with
          | .optimistic => 12/10 | .pessimistic => 7/10 | _ => 1) ∧
    (resolveParams st rm em gp).expense_multiplier
      = em.getD (match st with
          | .optimistic => 9/10 | .pessimistic => 115/100 | _ => 1) ∧
    (resolveParams st rm em gp).grant_probability
      = gp.getD (match st with | .pessimistic => 7/10 | _ => 1) := by
  refine ⟨?_, ?_, ?_, ?_, ?_⟩
  · simp only [scenarioAdjustedInflows, List.foldl_nil]
    exact mget_map_scale2 MONTHLY_INFLOWS m _ _
  · simp only [scenarioAdjustedExpenses]
    exact mget_map_scale1 MONTHLY_EXPENSES m _
  · cases st <;> simp [resolveParams, SCENARIO_PARAMS]
  · cases st <;> simp [resolveParams, SCENARIO_PARAMS]
  · cases st <;> simp [resolveParams, SCENARIO_PARAMS]

/-- C6, amended: for every month present in the schedule and every optional
burn-rate argument, `get_runway_at_month` divides the month's closing by
the effective burn rate — the supplied burn rate when it is nonzero, else
the average monthly burn, since a supplied 0 is falsy in the Python
fallback — and returns the +infinity sentinel, never an error, whenever
that effective burn rate is ≤ 0. -/
theorem claim_C6_amended (ob : ℚ) (infl exp : StrMap) (month : String)
    (br : Option ℚ) (hm : month ∈ MONTHS) :
    ((CashFlowModel.init ob infl exp).effectiveBurn br ≤ 0 →
      (CashFlowModel.init ob infl exp).get_runway_at_month month br = .infinite) ∧
    (0 < (CashFlowModel.init ob infl exp).effectiveBurn br →
      ∃ pos, (CashFlowModel.init ob infl exp).get_position month = some pos ∧
        (CashFlowModel.init ob infl exp).get_runway_at_month month br
          = .finite (pos.closing / (CashFlowModel.init ob infl exp).effectiveBurn br)) := by
  have hpos : ∃ pos, (CashFlowModel.init ob infl exp).get_position month = some pos := by
    simp only [MONTHS, List.mem_cons, List.not_mem_nil, or_false] at hm
    rcases hm with rfl | rfl | rfl | rfl | rfl | rfl | rfl | rfl | rfl | rfl | rfl | rfl <;>
      exact ⟨_, rfl⟩
  obtain ⟨pos, hp⟩ := hpos
  constructor
  · intro hb
    simp [CashFlowModel.get_runway_at_month, hp, hb]
  · intro hb
    exact ⟨pos, hp, by
      simp [CashFlowModel.get_runway_at_month, hp, not_le.mpr hb]⟩

/-- C6, witness: the amended theorem applied to the default model, January
and no burn-rate override; the average burn is positive, so the runway is
the January closing over the average burn. -/
theorem claim_C6_witness :
    ∃ pos, (CashFlowModel.init OPENING_BALANCE [] []).get_position "Jan" = some pos ∧
      (CashFlowModel.init OPENING_BALANCE [] []).get_runway_at_month "Jan" none
        = .finite (pos.closing / (CashFlowModel.init OPENING_BALANCE [] []).effectiveBurn none) :=
  (claim_C6_amended OPENING_BALANCE [] [] "Jan" none (by decide)).2 (by decide)

lemma run_scenario_custom_year_end (r e g : ℚ) :
    (run_scenario .custom (some r) (some e) (some g) []).year_end_surplus
      = OPENING_BALANCE + 3101283 * (r * g) - 2559354 * e := by
  simp [run_scenario, scenarioAdjustedInflows, scenarioAdjustedExpenses,
    resolveParams, SCENARIO_PARAMS, CashFlowModel.init, calculatePositions,
    stepPositions, mget, MONTHS, MONTHLY_INFLOWS, MONTHLY_EXPENSES,
    CashFlowModel.get_year_end_position, OPENING_BALANCE]
  ring

/-- C8, amended: holding the other parameters fixed, the year-end surplus
is strictly increasing in the revenue multiplier provided the grant
probability is positive (with probability 0 it is constant), and strictly
decreasing in the expense multiplier unconditionally. -/
theorem claim_C8_amended (r1 r2 e e1 e2 r g g2 : ℚ)
    (hg : 0 < g) (hr : r1 < r2) (he : e1 < e2) :
    (run_scenario .custom (some r1) (some e) (some g) []).year_end_surplus
      < (run_scenario .custom (some r2) (some e) (some g) []).year_end_surplus ∧
    (run_scenario .custom (some r) (some e2) (some g2) []).year_end_surplus
      < (run_scenario .custom (some r) (some e1) (some g2) []).year_end_surplus := by
  rw [run_scenario_custom_year_end, run_scenario_custom_year_end,
    run_scenario_custom_year_end, run_scenario_custom_year_end]
  constructor
  · have h1 : 3101283 * (r1 * g) < 3101283 * (r2 * g) := by nlinarith
    linarith
  · nlinarith

/-- C8, witness: the amended theorem at revenue multipliers 1 < 2 and
expense multipliers 1 < 3/2, with all probabilities 1. -/
theorem claim_C8_witness :
    (run_scenario .custom (some 1) (some 1) (some 1) []).year_end_surplus
      < (run_scenario .custom (some 2) (some 1) (some 1) []).year_end_surplus ∧
    (run_scenario .custom (some 1) (some (3/2)) (some 1) []).year_end_surplus
      < (run_scenario .custom (some 1) (some 1) (some 1) []).year_end_surplus :=
  claim_C8_amended 1 2 1 1 (3/2) 1 1 1 (by norm_num) (by norm_num) (by norm_num)

/-- C9, amended: only `simulate_grant_removal` fails with a not-found
result that enumerates the valid grant identifiers; the other entry points
(`simulate_grant_loss` and `run_scenario` with excluded_grants) silently
skip an unknown grant key and return the scenario result unchanged. -/
theorem claim_C9_amended (key : String)
    (h1 : grantLookup (normalizeGrantKey key) = none)
    (h2 : grantLookup key = none) :
    simulate_grant_removal key
      = .notFound ["prevail_general_ops", "prevail_implementation",
          "prevail_data_collection", "dovetail", "mulago", "niete_ict"] ∧
    simulate_grant_loss key = run_scenario .custom none none none [] := by
  constructor
  · simp [simulate_grant_removal, h1, GRANT_INCOME]
  · simp [simulate_grant_loss, run_scenario, scenarioAdjustedInflows, h2]

/-- C9, witness: the amended theorem at the unknown key "No Such Grant"
(which normalises to "no_such_grant"). -/
theorem claim_C9_witness :
    simulate_grant_removal "No Such Grant"
      = .notFound ["prevail_general_ops", "prevail_implementation",
          "prevail_data_collection", "dovetail", "mulago", "niete_ict"] ∧
    simulate_grant_loss "No Such Grant" = run_scenario .custom none none none [] :=
  claim_C9_amended "No Such Grant" (by decide) (by decide)

end Taleemabad
